import Mathlib

/-!
Verification of the Rebalance portfolio engine (src/App.py, class PortfolioManager).

The Python source works on plain floats; we embed its arithmetic over the exact
rationals `ℚ` (the deterministic idealisation of the float code: every literal,
sum, product, division and comparison is translated verbatim, with `x / 0 = 0`
as Lean's junk value in positions the app never reaches with a zero total).
Python dicts keyed by asset name (`deficits`, `current_values` in
`calculate_pac_rebalancing`) are modelled positionally over the entry list;
this coincides with the source whenever entry names are pairwise distinct,
which is the only situation in which the name-keyed Python dicts faithfully
hold one record per asset.
-/

namespace Rebalance

/-- An input asset record, the shape held in `st.session_state.assets`:
`{'name': ..., 'current_value': ..., 'target': ...}` (App.py line 378). -/
structure Asset where
  name : String
  current_value : ℚ
  target : ℚ
  deriving Repr, DecidableEq

/-- `PortfolioManager.validate_targets` (App.py lines 31-34):
sums `target` over assets with `target > 0` and accepts iff
`abs(total_target - 100) < 0.01`; returns the pair `(is_valid, total_target)`. -/
def validate_targets (assets : List Asset) : Bool × ℚ :=
  let total := ((assets.filter (fun a => decide (0 < a.target))).map (fun a => a.target)).sum
  (decide (|total - 100| < 0.01), total)

/-- One element of `portfolio_data['assets_data']` (App.py lines 50-57). -/
structure AssetMetric where
  nome : String
  valore_attuale : ℚ
  pct_attuale : ℚ
  pct_target : ℚ
  valore_target : ℚ
  differenza : ℚ
  deriving Repr, DecidableEq

/-- The dict returned by `calculate_portfolio_metrics` (App.py lines 59-62). -/
structure PortfolioData where
  total_value : ℚ
  assets_data : List AssetMetric
  deriving Repr, DecidableEq

/-- `total_value` (App.py line 38): the sum of `current_value` over assets
with `current_value > 0`. -/
def filteredTotal (assets : List Asset) : ℚ :=
  ((assets.filter (fun a => decide (0 < a.current_value))).map
    (fun a => a.current_value)).sum

/-- The record appended to `assets_data` for one included asset
(App.py lines 46-57). -/
def mkMetric (total : ℚ) (a : Asset) : AssetMetric :=
  { nome := a.name
    valore_attuale := a.current_value
    pct_attuale := a.current_value / total * 100
    pct_target := a.target
    valore_target := a.target / 100 * total
    differenza := a.target / 100 * total - a.current_value }

/-- `PortfolioManager.calculate_portfolio_metrics` (App.py lines 36-62):
total over assets with `current_value > 0`; early return `{'total_value': 0,
'assets_data': []}` when that total is `0`; otherwise one metric record per
included asset, in input order. -/
def calculate_portfolio_metrics (assets : List Asset) : PortfolioData :=
  if filteredTotal assets = 0 then ⟨0, []⟩
  else
    ⟨filteredTotal assets,
      assets.filterMap (fun a =>
        if 0 < a.current_value then some (mkMetric (filteredTotal assets) a)
        else none)⟩

/-- The `Azione` column of the standard-rebalancing table (App.py line 71). -/
inductive Azione where
  | acquista
  | vendi
  deriving Repr, DecidableEq

/-- One row of the `calculate_standard_rebalancing` DataFrame (App.py lines 73-78);
`importo` is the numeric `Importo_num` column. -/
structure RebRow where
  asset : String
  azione : Azione
  importo : ℚ
  deriving Repr, DecidableEq

/-- `PortfolioManager.calculate_standard_rebalancing` (App.py lines 64-80):
for each entry, if `abs(difference) > 0.01`, emit `Acquista` when
`difference > 0` else `Vendi`, with amount `abs(difference)`. -/
def calculate_standard_rebalancing (pd : PortfolioData) : List RebRow :=
  pd.assets_data.filterMap (fun a =>
    if (0.01 : ℚ) < |a.differenza| then
      some { asset := a.nome
             azione := if (0 : ℚ) < a.differenza then Azione.acquista else Azione.vendi
             importo := |a.differenza| }
    else none)

/-- The per-entry row description in the words of the spec (§4.2): Buy of `gap`
exactly when `gap > 0.01`, Sell of `|gap|` exactly when `gap < -0.01`, omitted
otherwise. Used to compare the source behaviour against the spec sentence. -/
def specImmediateRow (a : AssetMetric) : Option RebRow :=
  if (0.01 : ℚ) < a.differenza then some ⟨a.nome, Azione.acquista, a.differenza⟩
  else if a.differenza < -(0.01 : ℚ) then some ⟨a.nome, Azione.vendi, -a.differenza⟩
  else none

/-- One row of the lump-sum allocation DataFrame (App.py lines 98-104);
`importo` is the numeric `Importo_num` column. -/
structure LumpRow where
  asset : String
  importo : ℚ
  deriving Repr, DecidableEq

/-- The `allocation_data` rows built by `calculate_lump_sum_rebalancing`
(App.py lines 90-105) before any scaling: per asset,
`amount_to_invest = pct_target/100 * (total_value + additional) - valore_attuale`,
kept only when `amount_to_invest > 0.01`. -/
def lumpRowsRaw (pd : PortfolioData) (additional : ℚ) : List LumpRow :=
  pd.assets_data.filterMap (fun a =>
    let amt := a.pct_target / 100 * (pd.total_value + additional) - a.valore_attuale
    if (0.01 : ℚ) < amt then some ⟨a.nome, amt⟩ else none)

/-- `total_to_invest` (App.py lines 88, 105): the sum of the emitted amounts. -/
def lumpTotal (pd : PortfolioData) (additional : ℚ) : ℚ :=
  ((lumpRowsRaw pd additional).map (fun r => r.importo)).sum

/-- `PortfolioManager.calculate_lump_sum_rebalancing` (App.py lines 82-119).
The second component models whether the insufficient-contribution warning was
surfaced (`st.warning`, line 111): scaling by `additional / total_to_invest`
happens exactly when the DataFrame is nonempty and
`total_to_invest > additional_amount`. -/
def calculate_lump_sum_rebalancing (pd : PortfolioData) (additional : ℚ) :
    List LumpRow × Bool :=
  if lumpRowsRaw pd additional ≠ [] ∧ additional < lumpTotal pd additional then
    ((lumpRowsRaw pd additional).map
      (fun r => ⟨r.asset, r.importo * (additional / lumpTotal pd additional)⟩), true)
  else (lumpRowsRaw pd additional, false)

/-- One asset of the PAC simulation state: the fixed name and `pct_target`,
the running `current_values[name]`, and whether the asset entered the
`deficits` dict at the start (App.py lines 128-143). -/
structure PacEntry where
  nome : String
  target : ℚ
  value : ℚ
  inDeficit : Bool
  deriving Repr, DecidableEq

/-- Per-asset deficit against the current total (App.py lines 129-143):
`(target_pct - current_pct)/100 * current_total` for assets with
`current_pct < target_pct`, else nothing. -/
def deficitOf (pd : PortfolioData) (a : AssetMetric) : ℚ :=
  let pct := a.valore_attuale / pd.total_value * 100
  if pct < a.pct_target then (a.pct_target - pct) / 100 * pd.total_value else 0

/-- `total_deficit` (App.py line 143): the one-shot deficit sum used to size
the PAC plan. -/
def totalDeficit (pd : PortfolioData) : ℚ :=
  (pd.assets_data.map (deficitOf pd)).sum

/-- The initial PAC state: `current_values` seeded from `assets_data`
(App.py line 153) together with the `deficits` membership flag
(App.py line 133). -/
def initPacEntries (pd : PortfolioData) : List PacEntry :=
  pd.assets_data.map (fun a =>
    { nome := a.nome
      target := a.pct_target
      value := a.valore_attuale
      inDeficit := decide (a.valore_attuale / pd.total_value * 100 < a.pct_target) })

/-- `months_needed = int(np.ceil(total_deficit / monthly_amount))`
(App.py line 149). -/
def pacBudget (pd : PortfolioData) (monthly : ℚ) : ℕ :=
  (Int.ceil (totalDeficit pd / monthly)).toNat

/-- The per-month `needed` for one asset (App.py lines 163-174): only assets in
`deficits` are visited; `current_pct` uses the `current_total > 0` guard of
line 165; `needed = max(0, target_pct/100 * (current_total + monthly) - value)`
is recorded in `month_investments` only when `needed > 0.01` (represented here
by `0` when it is not recorded). -/
def needOf (monthly total : ℚ) (e : PacEntry) : ℚ :=
  if e.inDeficit then
    if (if (0 : ℚ) < total then e.value / total * 100 else 0) < e.target then
      if (0.01 : ℚ) < max 0 (e.target / 100 * (total + monthly) - e.value) then
        max 0 (e.target / 100 * (total + monthly) - e.value)
      else 0
    else 0
  else 0

/-- The `month_investments` map for one simulated month, positionally. -/
def periodNeeds (monthly : ℚ) (es : List PacEntry) : List ℚ :=
  es.map (needOf monthly ((es.map (fun e => e.value)).sum))

/-- One proportional investment (App.py lines 180-187):
`investment = min(needed, (needed/total_month_need) * monthly_amount)`,
applied (and recorded in `month_data`) only when `investment > 0.01`. -/
def baseAllocOf (monthly tn n : ℚ) : ℚ :=
  if (0 : ℚ) < n then
    if (0.01 : ℚ) < min n (n / tn * monthly) then min n (n / tn * monthly) else 0
  else 0

/-- The vector of proportional investments applied in one month. -/
def periodBase (monthly : ℚ) (es : List PacEntry) : List ℚ :=
  (periodNeeds monthly es).map (baseAllocOf monthly (periodNeeds monthly es).sum)

/-- Add the allocation vector to the running `current_values`. -/
def applyAllocs (es : List PacEntry) (al : List ℚ) : List PacEntry :=
  List.zipWith (fun e a => { e with value := e.value + a }) es al

/-- Add `x` at position `i` of the allocation vector (identity out of range). -/
def addAt : List ℚ → ℕ → ℚ → List ℚ
  | [], _, _ => []
  | x :: xs, 0, r => (x + r) :: xs
  | x :: xs, i + 1, r => x :: addAt xs i r

/-- The most-underweight scan of App.py lines 192-201: walk the entries in
order keeping the first index whose `target - current_pct` strictly exceeds
the running maximum, which starts at `0` with no asset selected. -/
def bestUnderweight (total : ℚ) : List PacEntry → ℕ → ℚ → Option ℕ → Option ℕ
  | [], _, _, best => best
  | e :: rest, i, maxU, best =>
    let u := e.target - e.value / total * 100
    if maxU < u then bestUnderweight total rest (i + 1) u (some i)
    else bestUnderweight total rest (i + 1) maxU best

/-- The name of the entry at position `i` (`most_underweight_asset` holds the
asset's name; Python's `if most_underweight_asset` is false for `None` and for
the empty string). -/
def nameAt (es : List PacEntry) (i : ℕ) : String :=
  ((es.get? i).map (fun e => e.nome)).getD ""

/-- The leftover-routing step (App.py lines 189-206): after the proportional
investments, if `remaining_budget = monthly - sum(investments) > 0.01`, route
all of it to the most-underweight asset (when one exists and its name is
truthy). -/
def routedAllocs (monthly : ℚ) (es : List PacEntry) : List ℚ :=
  if (0.01 : ℚ) < monthly - (periodBase monthly es).sum then
    match bestUnderweight
        (((applyAllocs es (periodBase monthly es)).map (fun e => e.value)).sum)
        (applyAllocs es (periodBase monthly es)) 0 0 none with
    | some i =>
      if nameAt (applyAllocs es (periodBase monthly es)) i = "" then
        periodBase monthly es
      else addAt (periodBase monthly es) i (monthly - (periodBase monthly es).sum)
    | none => periodBase monthly es
  else periodBase monthly es

/-- The amounts added to `current_values` in one simulated month
(App.py lines 156-206): zero everywhere when
`total_month_need > 0 and month_investments` fails (line 177). -/
def periodAllocs (monthly : ℚ) (es : List PacEntry) : List ℚ :=
  if (0 : ℚ) < (periodNeeds monthly es).sum then routedAllocs monthly es
  else es.map (fun _ => (0 : ℚ))

/-- The PAC state after one simulated month. -/
def stepState (monthly : ℚ) (es : List PacEntry) : List PacEntry :=
  applyAllocs es (periodAllocs monthly es)

/-- The month loop of App.py lines 155-213: run at most `n` months, appending
each month's allocation vector; break (leaving the state untouched, as the
code does) on the first month whose `month_data` records no investment at all
(`len(month_data) > 1` fails, line 208). Returns the accumulated `pac_plan`
and the final `current_values`. -/
def pacRun (monthly : ℚ) : ℕ → List PacEntry → List (List ℚ) × List PacEntry
  | 0, es => ([], es)
  | n + 1, es =>
    let al := periodAllocs monthly es
    if al.all (fun a => decide (a = 0)) then ([], es)
    else
      let rest := pacRun monthly n (stepState monthly es)
      (al :: rest.1, rest.2)

/-- The `pac_plan` list produced for a portfolio (App.py line 152-213). -/
def pacPlanList (pd : PortfolioData) (monthly : ℚ) : List (List ℚ) :=
  (pacRun monthly (pacBudget pd monthly) (initPacEntries pd)).1

/-- The final `current_values` after the month loop. -/
def pacFinal (pd : PortfolioData) (monthly : ℚ) : List PacEntry :=
  (pacRun monthly (pacBudget pd monthly) (initPacEntries pd)).2

/-- The two result shapes of `calculate_pac_rebalancing`: the early return of
line 146 (`months_needed = 0`, empty plan, already-balanced message) and the
full result dict of lines 224-230. -/
inductive PacResult where
  | alreadyBalanced
  | plan (months_needed : ℕ) (pac_plan : List (List ℚ))
      (total_invested final_value : ℚ) (balanced : Bool)
  deriving Repr, DecidableEq

/-- `PortfolioManager.calculate_pac_rebalancing` (App.py lines 121-232):
early return when `total_deficit <= 0.01`; otherwise run the month loop and
report `months_needed = len(pac_plan)`,
`total_invested = len(pac_plan) * monthly_amount`, the final portfolio value,
and the 0.5-point balance check of lines 216-222. -/
def calculate_pac_rebalancing (pd : PortfolioData) (monthly : ℚ) : PacResult :=
  if totalDeficit pd ≤ 0.01 then PacResult.alreadyBalanced
  else
    PacResult.plan (pacPlanList pd monthly).length (pacPlanList pd monthly)
      (((pacPlanList pd monthly).length : ℚ) * monthly)
      (((pacFinal pd monthly).map (fun e => e.value)).sum)
      ((pacFinal pd monthly).all (fun e =>
        decide (|e.value / ((pacFinal pd monthly).map (fun e => e.value)).sum * 100
          - e.target| ≤ 0.5)))

/-- A JSON value, the shape `json.loads`/`json.dumps` work on.  Serialization
is modelled at this value level: `save_portfolio` builds the object that
`json.dumps` renders and `load_portfolio` consumes the value `json.loads`
produces (`none` standing for a string that is not valid JSON, the case in
which `json.loads` raises `JSONDecodeError`). -/
inductive Json where
  | null
  | bool (b : Bool)
  | num (q : ℚ)
  | str (s : String)
  | arr (xs : List Json)
  | obj (kvs : List (String × Json))

/-- Python `dict.get key default` over the parsed object's key-value pairs
(Python dicts hold each key once; first match). -/
def jsonLookup : List (String × Json) → String → Option Json
  | [], _ => none
  | (k, v) :: rest, key => if k = key then some v else jsonLookup rest key

/-- The JSON object for one asset dict `{'name', 'current_value', 'target'}`. -/
def encodeAsset (a : Asset) : Json :=
  Json.obj [("name", Json.str a.name), ("current_value", Json.num a.current_value),
    ("target", Json.num a.target)]

/-- Recover the asset record from its JSON object (the inverse direction of
`encodeAsset`, expressing that the saved record determines the assets). -/
def decodeAsset : Json → Option Asset
  | Json.obj kvs =>
    match jsonLookup kvs "name", jsonLookup kvs "current_value",
        jsonLookup kvs "target" with
    | some (Json.str n), some (Json.num v), some (Json.num t) => some ⟨n, v, t⟩
    | _, _, _ => none
  | _ => none

/-- `PortfolioManager.save_portfolio` (App.py lines 279-286): the dict
`{'nome_portafoglio': ..., 'assets': ..., 'versione': '1.0'}` that is dumped. -/
def save_portfolio (name : String) (assets : List Asset) : Json :=
  Json.obj [("nome_portafoglio", Json.str name),
    ("assets", Json.arr (assets.map encodeAsset)),
    ("versione", Json.str "1.0")]

/-- The observable outcomes of `load_portfolio` (App.py lines 288-294):
`malformed` is the `ValueError` raised on `json.JSONDecodeError`;
`attrError` is the uncaught `AttributeError` raised by `data.get` when the
parsed value is not a dict; `ok` carries the two returned values. -/
inductive LoadOutcome where
  | malformed
  | attrError
  | ok (name : Json) (assets : Json)

/-- `PortfolioManager.load_portfolio` (App.py lines 288-294) applied to the
result of `json.loads` (`none` when the input string is not valid JSON):
`data.get('nome_portafoglio', '')` and `data.get('assets', [])` on a dict;
`.get` on any other parsed value raises `AttributeError`, which the
`except json.JSONDecodeError` clause does not catch. -/
def load_portfolio : Option Json → LoadOutcome
  | none => LoadOutcome.malformed
  | some (Json.obj kvs) =>
    LoadOutcome.ok ((jsonLookup kvs "nome_portafoglio").getD (Json.str ""))
      ((jsonLookup kvs "assets").getD (Json.arr []))
  | some _ => LoadOutcome.attrError

/-! ### Concrete portfolios used by counterexamples and witnesses -/

/-- The spec's own Mode-B example: values {800, 200}, targets {50%, 50%}. -/
def pdExC1 : PortfolioData :=
  calculate_portfolio_metrics [⟨"A", 800, 50⟩, ⟨"B", 200, 50⟩]

/-- Three assets with values {450.005, 219.992, 330.003} (total 1000) and
targets {50, 20, 30}: with a contribution of 100, asset B's raw amount is
0.008 (below the 0.01 emission threshold), so the sum of `max(0, needed)`
over all assets (100.003) exceeds the contribution while the emitted total
(99.995) does not. -/
def pdC2 : PortfolioData :=
  calculate_portfolio_metrics
    [⟨"A", 90001/200, 50⟩, ⟨"B", 27499/125, 20⟩, ⟨"C", 330003/1000, 30⟩]

/-- Values {500, 500} with targets {50, 50.005}: the target sum 100.005 is
within the 0.01 validation tolerance, yet the target values sum to 1000.05. -/
def asC7 : List Asset := [⟨"A", 500, 50⟩, ⟨"B", 500, 10001/200⟩]

/-- Values {101, 899} with targets {10, 89.995}: in the single planned month
asset B absorbs 9.9495 of the 10 budget and the leftover 0.0505 finds no
underweight asset, so it is dropped while `total_invested` reports 10. -/
def pdC10 : PortfolioData :=
  calculate_portfolio_metrics [⟨"A", 101, 10⟩, ⟨"B", 899, 17999/200⟩]

/-- A two-asset portfolio needing a Buy and a Sell of 100 each. -/
def pdW3 : PortfolioData :=
  calculate_portfolio_metrics [⟨"A", 100, 50⟩, ⟨"B", 300, 50⟩]

/-! ### Helper lemmas -/

/-- `filterMap` with an if-some-else-none body is map-after-filter. -/
theorem filterMap_if_eq_map_filter {α β : Type} (p : α → Prop) [DecidablePred p]
    (f : α → β) (l : List α) :
    (l.filterMap (fun a => if p a then some (f a) else none))
      = (l.filter (fun a => decide (p a))).map f := by
  induction l with
  | nil => rfl
  | cons a l ih =>
    by_cases h : p a <;> simp [List.filterMap_cons, List.filter_cons, h, ih]

/-- `filterMap` respects pointwise-equal row functions. -/
theorem filterMap_congr_mem {α β : Type} {l : List α} {f g : α → Option β}
    (h : ∀ a ∈ l, f a = g a) : l.filterMap f = l.filterMap g := by
  induction l with
  | nil => rfl
  | cons a l ih =>
    rw [List.filterMap_cons, List.filterMap_cons, h a (by simp),
      ih (fun x hx => h x (by simp [hx]))]

/-- Summing a list of strictly positive rationals to `0` forces emptiness. -/
theorem eq_nil_of_sum_eq_zero_of_pos {l : List ℚ} (hpos : ∀ x ∈ l, 0 < x)
    (h : l.sum = 0) : l = [] := by
  cases l with
  | nil => rfl
  | cons x xs =>
    exfalso
    have hx := hpos x (by simp)
    have hxs : 0 ≤ xs.sum := List.sum_nonneg (fun y hy => (hpos y (by simp [hy])).le)
    rw [List.sum_cons] at h
    linarith

/-- Pull a common right factor out of a mapped sum. -/
theorem sum_map_mul_right {α : Type} (l : List α) (g : α → ℚ) (c : ℚ) :
    (l.map (fun x => g x * c)).sum = (l.map g).sum * c := by
  induction l with
  | nil => simp
  | cons a l ih => simp [ih, add_mul]

/-- Under nonnegative targets (the data model restricts `target_pct` to
`[0, 100]`), the `target > 0` filter inside `validate_targets` does not change
the sum. -/
theorem sum_filter_pos_targets (assets : List Asset)
    (h : ∀ a ∈ assets, 0 ≤ a.target) :
    (((assets.filter (fun a => decide (0 < a.target))).map (fun a => a.target)).sum)
      = (assets.map (fun a => a.target)).sum := by
  induction assets with
  | nil => rfl
  | cons a l ih =>
    have ha := h a (by simp)
    have ihl := ih (fun x hx => h x (by simp [hx]))
    by_cases hp : (0 : ℚ) < a.target
    · simp [List.filter_cons, hp, ihl]
    · have h0 : a.target = 0 := le_antisymm (not_lt.mp hp) ha
      simp [List.filter_cons, hp, h0, ihl]

/-- With a nonzero filtered total, the snapshot entries are exactly the
included assets mapped through `mkMetric`. -/
theorem assets_data_of_total_ne_zero (assets : List Asset)
    (h : filteredTotal assets ≠ 0) :
    (calculate_portfolio_metrics assets).assets_data
      = (assets.filter (fun a => decide (0 < a.current_value))).map
          (mkMetric (filteredTotal assets)) := by
  unfold calculate_portfolio_metrics
  rw [if_neg h]
  exact filterMap_if_eq_map_filter (fun a => 0 < a.current_value) _ assets

/-! ### Claim C5 -/

/-- Claim C5, corrected.  For every asset list with nonnegative targets (the
data model's `target_pct ∈ [0, 100]`), `validate_targets` accepts exactly when
the sum of the targets differs from 100 by strictly less than 0.01 (the source
uses `abs(total_target - 100) < 0.01`, a strict comparison, so a deviation of
exactly 0.01 is rejected), and the reported total is that sum. -/
theorem claim_C5_amended (assets : List Asset) (h : ∀ a ∈ assets, 0 ≤ a.target) :
    ((validate_targets assets).1 = true
        ↔ |(assets.map (fun a => a.target)).sum - 100| < 0.01)
    ∧ (validate_targets assets).2 = (assets.map (fun a => a.target)).sum := by
  unfold validate_targets
  rw [sum_filter_pos_targets assets h]
  exact ⟨by simp, rfl⟩

/-- Claim C5 fails as stated: the portfolio {50, 50.01} has targets summing to
exactly 100.01, which the claim says is accepted, yet `validate_targets`
rejects it (the deviation 0.01 is not strictly below the 0.01 threshold). -/
theorem claim_C5_counterexample :
    (validate_targets [⟨"A", 1, 50⟩, ⟨"B", 1, 5001/100⟩]).2 = 10001/100
    ∧ (validate_targets [⟨"A", 1, 50⟩, ⟨"B", 1, 5001/100⟩]).1 = false := by
  constructor <;> norm_num [validate_targets, abs_lt]

/-- Witness for `claim_C5_amended` at the concrete portfolio {60, 40}. -/
theorem claim_C5_witness :
    ((validate_targets [⟨"A", 2, 60⟩, ⟨"B", 3, 40⟩]).1 = true
        ↔ |(([⟨"A", 2, 60⟩, ⟨"B", 3, 40⟩] : List Asset).map (fun a => a.target)).sum
            - 100| < 0.01)
    ∧ (validate_targets [⟨"A", 2, 60⟩, ⟨"B", 3, 40⟩]).2
        = (([⟨"A", 2, 60⟩, ⟨"B", 3, 40⟩] : List Asset).map (fun a => a.target)).sum :=
  claim_C5_amended [⟨"A", 2, 60⟩, ⟨"B", 3, 40⟩] (by
    intro a ha
    fin_cases ha <;> norm_num)

/-! ### Claim C6 -/

/-- Claim C6, confirmed.  The snapshot builder's total is the sum over assets
with `current_value > 0`; its entries are exactly those assets, in input order,
with their name and value unchanged (so excluded assets are never zero-filled);
and when the included values sum to 0 the result is the empty snapshot
`⟨0, []⟩` (the early return of App.py line 40) rather than an error. -/
theorem claim_C6 (assets : List Asset) :
    (calculate_portfolio_metrics assets).total_value
        = ((assets.filter (fun a => decide (0 < a.current_value))).map
            (fun a => a.current_value)).sum
    ∧ (calculate_portfolio_metrics assets).assets_data.map
            (fun m => (m.nome, m.valore_attuale))
        = (assets.filter (fun a => decide (0 < a.current_value))).map
            (fun a => (a.name, a.current_value))
    ∧ (((assets.filter (fun a => decide (0 < a.current_value))).map
            (fun a => a.current_value)).sum = 0 →
        calculate_portfolio_metrics assets = ⟨0, []⟩) := by
  have hsum : filteredTotal assets
      = ((assets.filter (fun a => decide (0 < a.current_value))).map
          (fun a => a.current_value)).sum := rfl
  by_cases h : filteredTotal assets = 0
  · have hfil : assets.filter (fun a => decide (0 < a.current_value)) = [] := by
      refine List.map_eq_nil_iff.mp (eq_nil_of_sum_eq_zero_of_pos ?_ (hsum ▸ h))
      intro x hx
      obtain ⟨a, ha, rfl⟩ := List.mem_map.mp hx
      exact of_decide_eq_true (List.mem_filter.mp ha).2
    unfold calculate_portfolio_metrics
    simp [h, hfil, hsum ▸ h]
  · have hdata := assets_data_of_total_ne_zero assets h
    refine ⟨?_, ?_, fun hz => absurd (hsum ▸ hz) h⟩
    · unfold calculate_portfolio_metrics
      rw [if_neg h]
      exact hsum
    · rw [hdata, List.map_map]
      exact List.map_congr_left (fun a _ => rfl)

/-- Witness for `claim_C6` at an asset list whose single asset has value 0:
the implication hypothesis (included values sum to 0) is discharged and the
builder returns the empty snapshot. -/
theorem claim_C6_witness :
    calculate_portfolio_metrics [⟨"A", 0, 100⟩] = ⟨0, []⟩ :=
  (claim_C6 [⟨"A", 0, 100⟩]).2.2 (by norm_num [List.filter_cons])

/-! ### Claim C7 -/

/-- Claim C7, amended.  When the snapshot entries' target percentages sum to
exactly 100, the entries' target values sum to exactly the snapshot's total
value (the sums `Σ tᵢ/100·T = (Σ tᵢ)/100·T`).  Under the claimed 0.01
tolerance on the target sum only the weaker bound
`|Σ target_value - total| ≤ 0.0001·total` holds — see the counterexample. -/
theorem claim_C7_amended (assets : List Asset)
    (h : ((calculate_portfolio_metrics assets).assets_data.map
        (fun m => m.pct_target)).sum = 100) :
    ((calculate_portfolio_metrics assets).assets_data.map
        (fun m => m.valore_target)).sum
      = (calculate_portfolio_metrics assets).total_value := by
  by_cases h0 : filteredTotal assets = 0
  · unfold calculate_portfolio_metrics at h
    rw [if_pos h0] at h
    norm_num at h
  · have hdata := assets_data_of_total_ne_zero assets h0
    have htot : (calculate_portfolio_metrics assets).total_value
        = filteredTotal assets := by
      unfold calculate_portfolio_metrics
      rw [if_neg h0]
    rw [hdata, List.map_map] at h ⊢
    rw [htot]
    have hrw : ((assets.filter (fun a => decide (0 < a.current_value))).map
        ((fun m => m.valore_target) ∘ mkMetric (filteredTotal assets))).sum
        = ((assets.filter (fun a => decide (0 < a.current_value))).map
            ((fun m => m.pct_target) ∘ mkMetric (filteredTotal assets))).sum
          * (filteredTotal assets / 100) := by
      rw [← sum_map_mul_right]
      refine congrArg List.sum (List.map_congr_left ?_)
      intro a _
      show a.target / 100 * filteredTotal assets
        = a.target * (filteredTotal assets / 100)
      ring
    rw [hrw, h]
    ring

/-- Claim C7 fails as stated: for values {500, 500} with targets {50, 50.005},
the targets sum to 100.005 — within the caller-enforced 0.01 tolerance — yet
the entries' target values sum to 1000.05, which differs from the total 1000
by 0.05, far beyond the claimed 1e-6. -/
theorem claim_C7_counterexample :
    |((calculate_portfolio_metrics asC7).assets_data.map
        (fun m => m.pct_target)).sum - 100| ≤ 0.01
    ∧ ¬ (|((calculate_portfolio_metrics asC7).assets_data.map
        (fun m => m.valore_target)).sum
          - (calculate_portfolio_metrics asC7).total_value| ≤ 1/1000000) := by
  constructor <;>
    norm_num [asC7, calculate_portfolio_metrics, filteredTotal, mkMetric,
      List.filter_cons, List.filterMap_cons, abs_le]

/-- Witness for `claim_C7_amended` at the portfolio {60%, 40%} on equal
values. -/
theorem claim_C7_witness :
    ((calculate_portfolio_metrics [⟨"A", 1, 60⟩, ⟨"B", 1, 40⟩]).assets_data.map
        (fun m => m.valore_target)).sum
      = (calculate_portfolio_metrics [⟨"A", 1, 60⟩, ⟨"B", 1, 40⟩]).total_value :=
  claim_C7_amended [⟨"A", 1, 60⟩, ⟨"B", 1, 40⟩] (by
    norm_num [calculate_portfolio_metrics, filteredTotal, mkMetric,
      List.filter_cons, List.filterMap_cons])

/-! ### Claim C3 -/

/-- A `filterMap` whose rows keep the entry's name produces a name list that
is a sublist of the entries' names. -/
theorem filterMap_names_sublist (l : List AssetMetric) (f : AssetMetric → Option RebRow)
    (hf : ∀ a r, f a = some r → r.asset = a.nome) :
    ((l.filterMap f).map (fun r => r.asset)).Sublist (l.map (fun a => a.nome)) := by
  induction l with
  | nil => simp
  | cons a l ih =>
    cases hfa : f a with
    | none =>
      rw [List.filterMap_cons, hfa, List.map_cons]
      exact ih.cons a.nome
    | some r =>
      rw [List.filterMap_cons, hfa, List.map_cons, List.map_cons, hf a r hfa]
      exact ih.cons₂ a.nome

/-- Claim C3, confirmed.  The immediate rebalancer emits, per entry, exactly
the row described by the spec sentence — Buy of `gap` iff `gap > 0.01`, Sell
of `|gap|` iff `gap < -0.01`, omitted otherwise; entry-wise distinct names
stay distinct in the result, so no asset appears twice (assets are identified
by name, and a snapshot holds each asset once); a snapshot all of whose gaps
are within 0.01 yields the empty row list; and a single asset with target
100% and any positive value yields the empty row list. -/
theorem claim_C3 (pd : PortfolioData) :
    calculate_standard_rebalancing pd = pd.assets_data.filterMap specImmediateRow
    ∧ ((pd.assets_data.map (fun a => a.nome)).Nodup →
        ((calculate_standard_rebalancing pd).map (fun r => r.asset)).Nodup)
    ∧ ((∀ a ∈ pd.assets_data, |a.differenza| ≤ 0.01) →
        calculate_standard_rebalancing pd = [])
    ∧ (∀ (nm : String) (v : ℚ), 0 < v →
        calculate_standard_rebalancing (calculate_portfolio_metrics [⟨nm, v, 100⟩])
          = []) := by
  refine ⟨?_, ?_, ?_, ?_⟩
  · refine filterMap_congr_mem (fun a _ => ?_)
    unfold specImmediateRow
    by_cases h1 : (0.01 : ℚ) < a.differenza
    · have hpos : (0 : ℚ) < a.differenza := lt_trans (by norm_num) h1
      rw [if_pos (by rw [abs_of_pos hpos]; exact h1), if_pos h1, if_pos hpos,
        abs_of_pos hpos]
    · by_cases h2 : a.differenza < -(0.01 : ℚ)
      · have hneg : a.differenza < 0 := lt_trans h2 (by norm_num)
        rw [if_pos (by rw [abs_of_neg hneg]; linarith), if_neg h1, if_pos h2,
          if_neg (not_lt.mpr hneg.le), abs_of_neg hneg]
      · rw [if_neg (by rw [not_lt, abs_le]; constructor <;> linarith), if_neg h1,
          if_neg h2]
  · intro hnd
    refine List.Nodup.sublist ?_ hnd
    refine filterMap_names_sublist pd.assets_data _ (fun a r hr => ?_)
    by_cases h : (0.01 : ℚ) < |a.differenza|
    · rw [if_pos h] at hr
      cases hr
      rfl
    · rw [if_neg h] at hr
      cases hr
  · intro hall
    unfold calculate_standard_rebalancing
    rw [List.filterMap_eq_nil_iff]
    intro a ha
    rw [if_neg (not_lt.mpr (hall a ha))]
  · intro nm v hv
    have htot : filteredTotal [⟨nm, v, 100⟩] = v := by
      simp [filteredTotal, List.filter_cons, hv]
    have hne : filteredTotal [⟨nm, v, 100⟩] ≠ 0 := by rw [htot]; exact hv.ne'
    have hdata := assets_data_of_total_ne_zero [⟨nm, v, 100⟩] hne
    unfold calculate_standard_rebalancing
    rw [hdata, htot]
    have : mkMetric v ⟨nm, v, 100⟩ = ⟨nm, v, v / v * 100, 100, v, 0⟩ := by
      unfold mkMetric
      simp only [AssetMetric.mk.injEq]
      norm_num
    simp [List.filter_cons, hv, this]
    norm_num

/-- Witness for `claim_C3`: the snapshot {100, 300} with targets {50, 50}
needs a Buy of 100 on A and a Sell of 100 on B; its result names are distinct,
and the single-asset boundary case gives the empty list. -/
theorem claim_C3_witness :
    ((calculate_standard_rebalancing pdW3).map (fun r => r.asset)).Nodup
    ∧ calculate_standard_rebalancing (calculate_portfolio_metrics [⟨"X", 5, 100⟩])
        = [] :=
  ⟨(claim_C3 pdW3).2.1 (by
      norm_num [pdW3, calculate_portfolio_metrics, filteredTotal, mkMetric,
        List.filter_cons, List.filterMap_cons]
      decide),
   (claim_C3 pdW3).2.2.2 "X" 5 (by norm_num)⟩

/-! ### Claim C2 -/

/-- Claim C2, amended.  Per asset the raw amount is
`pct_target/100·(total+C) − current_value`, emitted only when it exceeds the
0.01 threshold (not `max(0, ·)` over all assets); `total_to_invest` sums the
emitted amounts only.  If that emitted total is at most `C`, the rows are
returned unscaled with no warning; if it exceeds `C` (and the row list is
nonempty), every row is scaled by the common factor `C / total_to_invest`,
the scaled amounts sum to exactly `C`, and the warning is surfaced. -/
theorem claim_C2_amended (pd : PortfolioData) (amount : ℚ) (hC : 0 < amount) :
    (lumpTotal pd amount ≤ amount →
        calculate_lump_sum_rebalancing pd amount = (lumpRowsRaw pd amount, false))
    ∧ (lumpRowsRaw pd amount ≠ [] → amount < lumpTotal pd amount →
        calculate_lump_sum_rebalancing pd amount
          = ((lumpRowsRaw pd amount).map
              (fun r => ⟨r.asset, r.importo * (amount / lumpTotal pd amount)⟩), true)
        ∧ (((calculate_lump_sum_rebalancing pd amount).1.map
              (fun r => r.importo)).sum = amount)) := by
  constructor
  · intro hle
    unfold calculate_lump_sum_rebalancing
    rw [if_neg]
    rintro ⟨-, hlt⟩
    exact absurd hlt (not_lt.mpr hle)
  · intro hne hlt
    have heq : calculate_lump_sum_rebalancing pd amount
        = ((lumpRowsRaw pd amount).map
            (fun r => ⟨r.asset, r.importo * (amount / lumpTotal pd amount)⟩), true) := by
      unfold calculate_lump_sum_rebalancing
      rw [if_pos ⟨hne, hlt⟩]
    refine ⟨heq, ?_⟩
    rw [heq]
    have htne : lumpTotal pd amount ≠ 0 := by
      have : (0 : ℚ) < lumpTotal pd amount := lt_trans hC hlt
      exact this.ne'
    calc ((((lumpRowsRaw pd amount).map
          (fun r => (⟨r.asset, r.importo * (amount / lumpTotal pd amount)⟩ : LumpRow))).map
            (fun r => r.importo)).sum)
        = ((lumpRowsRaw pd amount).map
            (fun r => r.importo * (amount / lumpTotal pd amount))).sum := by
          rw [List.map_map]
          rfl
      _ = lumpTotal pd amount * (amount / lumpTotal pd amount) := by
          rw [sum_map_mul_right]
          rfl
      _ = amount := by
          field_simp

/-- Claim C2 fails as stated on `pdC2` with contribution 100: the sum of
`max(0, needed)` over all assets is 100.003 > 100, so the claim requires the
emitted amounts to be scaled to sum to 100 within 1e-6 with the warning
surfaced; but asset B's raw amount 0.008 sits below the 0.01 emission
threshold, the emitted total is only 99.995 ≤ 100, and the engine neither
scales nor warns — the emitted sum misses 100 by 0.005. -/
theorem claim_C2_counterexample :
    100 < (pdC2.assets_data.map
        (fun a => max 0 (a.pct_target / 100 * (pdC2.total_value + 100)
          - a.valore_attuale))).sum
    ∧ ¬ (|((calculate_lump_sum_rebalancing pdC2 100).1.map
          (fun r => r.importo)).sum - 100| ≤ 1/1000000)
    ∧ (calculate_lump_sum_rebalancing pdC2 100).2 = false := by
  have hpd : pdC2 = ⟨1000,
      [mkMetric 1000 ⟨"A", 90001/200, 50⟩, mkMetric 1000 ⟨"B", 27499/125, 20⟩,
        mkMetric 1000 ⟨"C", 330003/1000, 30⟩]⟩ := by
    unfold pdC2
    norm_num [calculate_portfolio_metrics, filteredTotal, List.filter_cons,
      List.filterMap_cons]
  refine ⟨?_, ?_, ?_⟩ <;>
    norm_num [hpd, mkMetric, calculate_lump_sum_rebalancing, lumpRowsRaw,
      lumpTotal, List.filterMap_cons, abs_le]

/-- Witness for `claim_C2_amended` on the portfolio {800, 200} with targets
{50, 50} and contribution 100: the emitted total 350 exceeds 100, so the row
is scaled and the scaled amounts sum to exactly 100 with the warning set. -/
theorem claim_C2_witness :
    calculate_lump_sum_rebalancing pdExC1 100
      = ((lumpRowsRaw pdExC1 100).map
          (fun r => ⟨r.asset, r.importo * (100 / lumpTotal pdExC1 100)⟩), true)
    ∧ (((calculate_lump_sum_rebalancing pdExC1 100).1.map
          (fun r => r.importo)).sum = 100) :=
  (claim_C2_amended pdExC1 100 (by norm_num)).2
    (by
      norm_num [pdExC1, calculate_portfolio_metrics, filteredTotal, mkMetric,
        List.filter_cons, List.filterMap_cons, lumpRowsRaw])
    (by
      norm_num [pdExC1, calculate_portfolio_metrics, filteredTotal, mkMetric,
        List.filter_cons, List.filterMap_cons, lumpRowsRaw, lumpTotal])

/-! ### Claims C8 and C9 -/

/-- Claim C8, confirmed.  Loading the saved record returns exactly the saved
name and the saved asset list (every asset round-trips through its JSON object,
including unicode names and zero-value assets, since `name` and the rational
fields are arbitrary); and the saved record is an object carrying precisely
the fields `nome_portafoglio`, `assets` and `versione = "1.0"`. -/
theorem claim_C8 (name : String) (assets : List Asset) :
    load_portfolio (some (save_portfolio name assets))
        = LoadOutcome.ok (Json.str name) (Json.arr (assets.map encodeAsset))
    ∧ (∀ a : Asset, decodeAsset (encodeAsset a) = some a)
    ∧ save_portfolio name assets
        = Json.obj [("nome_portafoglio", Json.str name),
            ("assets", Json.arr (assets.map encodeAsset)),
            ("versione", Json.str "1.0")]
    ∧ (match save_portfolio name assets with
        | Json.obj kvs =>
          jsonLookup kvs "nome_portafoglio" = some (Json.str name)
          ∧ jsonLookup kvs "assets" = some (Json.arr (assets.map encodeAsset))
          ∧ jsonLookup kvs "versione" = some (Json.str "1.0")
        | _ => False) := by
  refine ⟨rfl, fun a => rfl, rfl, ?_⟩
  exact ⟨rfl, rfl, rfl⟩

/-- Claim C9, amended.  `load_portfolio` fails with the MalformedInput
condition (the `ValueError` of line 294) exactly when the input string is not
valid JSON; an input that is valid JSON but not an object does fail, with a
different, uncaught error (`AttributeError` from `.get` on a non-dict), so
"not parseable as the expected structure ⇒ MalformedInput" and "never fails in
any other way" are both false as stated; a parsed object never fails, and a
missing or renamed `nome_portafoglio`/`assets` field defaults to the empty
string / empty list. -/
theorem claim_C9_amended :
    (∀ oj : Option Json, load_portfolio oj = LoadOutcome.malformed ↔ oj = none)
    ∧ (∀ kvs, load_portfolio (some (Json.obj kvs))
        = LoadOutcome.ok ((jsonLookup kvs "nome_portafoglio").getD (Json.str ""))
            ((jsonLookup kvs "assets").getD (Json.arr [])))
    ∧ (∀ j : Json, (∀ kvs, j ≠ Json.obj kvs) →
        load_portfolio (some j) = LoadOutcome.attrError)
    ∧ (∀ kvs, jsonLookup kvs "nome_portafoglio" = none →
        jsonLookup kvs "assets" = none →
        load_portfolio (some (Json.obj kvs))
          = LoadOutcome.ok (Json.str "") (Json.arr [])) := by
  refine ⟨?_, fun kvs => rfl, ?_, ?_⟩
  · intro oj
    match oj with
    | none => simp [load_portfolio]
    | some (Json.null) => simp [load_portfolio]
    | some (Json.bool b) => simp [load_portfolio]
    | some (Json.num q) => simp [load_portfolio]
    | some (Json.str s) => simp [load_portfolio]
    | some (Json.arr xs) => simp [load_portfolio]
    | some (Json.obj kvs) => simp [load_portfolio]
  · intro j hj
    match j with
    | Json.null => rfl
    | Json.bool b => rfl
    | Json.num q => rfl
    | Json.str s => rfl
    | Json.arr xs => rfl
    | Json.obj kvs => exact absurd rfl (hj kvs)
  · intro kvs h1 h2
    show LoadOutcome.ok ((jsonLookup kvs "nome_portafoglio").getD (Json.str ""))
        ((jsonLookup kvs "assets").getD (Json.arr []))
      = LoadOutcome.ok (Json.str "") (Json.arr [])
    rw [h1, h2]
    rfl

/-- Claim C9 fails as stated: the input `"[]"` is valid JSON but not the
expected structure, so the claim requires the MalformedInput condition; the
code instead raises an uncaught `AttributeError` (`[].get` does not exist),
a different failure. -/
theorem claim_C9_counterexample :
    load_portfolio (some (Json.arr [])) = LoadOutcome.attrError
    ∧ LoadOutcome.attrError ≠ LoadOutcome.malformed := by
  refine ⟨rfl, ?_⟩
  intro h
  cases h

/-- Witness for `claim_C9_amended`: a parsed number fails with the attribute
error and the empty parsed object loads with the lenient defaults. -/
theorem claim_C9_witness :
    load_portfolio (some (Json.num 5)) = LoadOutcome.attrError
    ∧ load_portfolio (some (Json.obj []))
        = LoadOutcome.ok (Json.str "") (Json.arr []) :=
  ⟨claim_C9_amended.2.2.1 (Json.num 5) (fun kvs h => by cases h),
   claim_C9_amended.2.2.2 [] rfl rfl⟩

/-! ### The PAC planner invariants (claims C1, C4, C10) -/

/-- Every per-month need is nonnegative. -/
theorem needOf_nonneg (monthly total : ℚ) (e : PacEntry) : 0 ≤ needOf monthly total e := by
  unfold needOf
  split_ifs <;> first | exact le_max_left 0 _ | exact le_refl 0

/-- Elements of the month's needs vector are nonnegative. -/
theorem periodNeeds_nonneg (monthly : ℚ) (es : List PacEntry) :
    ∀ n ∈ periodNeeds monthly es, 0 ≤ n := by
  intro n hn
  obtain ⟨e, _, rfl⟩ := List.mem_map.mp hn
  exact needOf_nonneg _ _ e

/-- The proportional investments of one month sum to at most the monthly
budget. -/
theorem periodBase_sum_le (monthly : ℚ) (es : List PacEntry) (hP : 0 < monthly)
    (h : 0 < (periodNeeds monthly es).sum) :
    (periodBase monthly es).sum ≤ monthly := by
  have htn : (periodNeeds monthly es).sum ≠ 0 := h.ne'
  have hstep : ∀ n ∈ periodNeeds monthly es,
      baseAllocOf monthly (periodNeeds monthly es).sum n
        ≤ n * (monthly / (periodNeeds monthly es).sum) := by
    intro n hn
    have hn0 : 0 ≤ n := periodNeeds_nonneg monthly es n hn
    unfold baseAllocOf
    split_ifs with h1 h2
    · calc min n (n / (periodNeeds monthly es).sum * monthly)
          ≤ n / (periodNeeds monthly es).sum * monthly := min_le_right _ _
        _ = n * (monthly / (periodNeeds monthly es).sum) := by ring
    · positivity
    · have : n = 0 := le_antisymm (not_lt.mp h1) hn0
      rw [this]
      norm_num
  calc (periodBase monthly es).sum
      ≤ ((periodNeeds monthly es).map
          (fun n => n * (monthly / (periodNeeds monthly es).sum))).sum :=
        List.sum_le_sum hstep
    _ = (periodNeeds monthly es).sum * (monthly / (periodNeeds monthly es).sum) := by
        rw [sum_map_mul_right]
        rw [List.map_id']
    _ = monthly := by field_simp

/-- Adding a nonnegative leftover at one position raises the sum by at most
that leftover. -/
theorem addAt_sum_le (l : List ℚ) (i : ℕ) (r : ℚ) (hr : 0 ≤ r) :
    (addAt l i r).sum ≤ l.sum + r := by
  induction l generalizing i with
  | nil => simpa [addAt] using hr
  | cons x xs ih =>
    cases i with
    | zero => simp [addAt, List.sum_cons]; ring_nf; exact le_refl _
    | succ j =>
      rw [addAt, List.sum_cons, List.sum_cons]
      have := ih j
      linarith

/-- One simulated month never allocates more than the monthly budget. -/
theorem periodAllocs_sum_le (monthly : ℚ) (es : List PacEntry) (hP : 0 < monthly) :
    (periodAllocs monthly es).sum ≤ monthly := by
  unfold periodAllocs
  split_ifs with h
  · unfold routedAllocs
    have hbase := periodBase_sum_le monthly es hP h
    split_ifs with hrem
    · cases hb : bestUnderweight
          (((applyAllocs es (periodBase monthly es)).map (fun e => e.value)).sum)
          (applyAllocs es (periodBase monthly es)) 0 0 none with
      | none => exact hbase
      | some i =>
        dsimp only
        split_ifs with hname
        · exact hbase
        · calc (addAt (periodBase monthly es) i (monthly - (periodBase monthly es).sum)).sum
              ≤ (periodBase monthly es).sum + (monthly - (periodBase monthly es).sum) :=
                addAt_sum_le _ i _ (by linarith)
            _ = monthly := by ring
    · exact hbase
  · have : (es.map (fun _ => (0 : ℚ))).sum = 0 := by
      induction es with
      | nil => rfl
      | cons e es ih => simp [ih]
    rw [this]
    exact hP.le

/-- The combined invariant of the month loop `pacRun`: at most `n` months are
kept; the final state is the `length`-fold iterate of the month step; the kept
allocations sum to at most `length · monthly`; every kept month allocated
something; and if fewer than `n` months were kept, the next simulated month
(the `length+1`-th) allocates nothing at all. -/
theorem pacRun_spec (monthly : ℚ) (hP : 0 < monthly) :
    ∀ (n : ℕ) (es : List PacEntry),
      (pacRun monthly n es).1.length ≤ n
      ∧ (pacRun monthly n es).2 = (stepState monthly)^[(pacRun monthly n es).1.length] es
      ∧ ((pacRun monthly n es).1.map List.sum).sum
          ≤ ((pacRun monthly n es).1.length : ℚ) * monthly
      ∧ (∀ k, k < (pacRun monthly n es).1.length →
          ¬ ((periodAllocs monthly ((stepState monthly)^[k] es)).all
              (fun a => decide (a = 0)) = true))
      ∧ ((pacRun monthly n es).1.length < n →
          (periodAllocs monthly ((stepState monthly)^[(pacRun monthly n es).1.length] es)).all
              (fun a => decide (a = 0)) = true) := by
  intro n
  induction n with
  | zero =>
    intro es
    refine ⟨le_refl 0, rfl, by norm_num [pacRun], ?_, ?_⟩
    · intro k hk
      exact absurd hk (Nat.not_lt_zero k)
    · intro h
      exact absurd h (Nat.not_lt_zero 0)
  | succ n ih =>
    intro es
    by_cases h : (periodAllocs monthly es).all (fun a => decide (a = 0)) = true
    · have hrun : pacRun monthly (n + 1) es = ([], es) := by
        simp only [pacRun]
        rw [if_pos h]
      rw [hrun]
      refine ⟨Nat.zero_le _, rfl, by norm_num, ?_, fun _ => ?_⟩
      · intro k hk
        exact absurd hk (Nat.not_lt_zero k)
      · simpa using h
    · have hrun : pacRun monthly (n + 1) es
          = (periodAllocs monthly es :: (pacRun monthly n (stepState monthly es)).1,
             (pacRun monthly n (stepState monthly es)).2) := by
        simp only [pacRun]
        rw [if_neg h]
      obtain ⟨ih1, ih2, ih3, ih4, ih5⟩ := ih (stepState monthly es)
      rw [hrun]
      refine ⟨by simpa using Nat.succ_le_succ ih1, ?_, ?_, ?_, ?_⟩
      · rw [List.length_cons, Function.iterate_succ_apply]
        exact ih2
      · rw [List.map_cons, List.sum_cons, List.length_cons]
        have hper := periodAllocs_sum_le monthly es hP
        push_cast
        have : ((pacRun monthly n (stepState monthly es)).1.map List.sum).sum
            ≤ ((pacRun monthly n (stepState monthly es)).1.length : ℚ) * monthly := ih3
        linarith
      · intro k hk
        cases k with
        | zero =>
          rw [Function.iterate_zero_apply]
          exact h
        | succ k =>
          rw [Function.iterate_succ_apply]
          rw [List.length_cons] at hk
          exact ih4 k (Nat.lt_of_succ_lt_succ hk)
      · intro hlt
        rw [List.length_cons] at hlt
        rw [List.length_cons, Function.iterate_succ_apply]
        exact ih5 (Nat.lt_of_succ_lt_succ hlt)

/-! ### Claim C4 -/

/-- Claim C4, confirmed.  For every plan the planner produces with monthly
amount `P > 0`: the total of all amounts allocated across the kept periods
never exceeds `periods_used · P`; `periods_used` never exceeds the computed
budget `⌈total_needed / P⌉`; every kept period allocated something (so the
loop never stops on a period that allocated); and the plan stops early
(`periods_used < budget`) exactly when the next simulated period — the
`(periods_used+1)`-th, i.e. the one run from the state after `periods_used`
steps — produces no allocations at all. -/
theorem claim_C4 (pd : PortfolioData) (P : ℚ) (m : ℕ) (pl : List (List ℚ))
    (ti fv : ℚ) (b : Bool) (hP : 0 < P)
    (h : calculate_pac_rebalancing pd P = PacResult.plan m pl ti fv b) :
    ((pl.map List.sum).sum ≤ (m : ℚ) * P)
    ∧ m ≤ pacBudget pd P
    ∧ (∀ k, k < m →
        ¬ ((periodAllocs P ((stepState P)^[k] (initPacEntries pd))).all
            (fun a => decide (a = 0)) = true))
    ∧ (m < pacBudget pd P →
        ((periodAllocs P ((stepState P)^[m] (initPacEntries pd))).all
            (fun a => decide (a = 0)) = true)) := by
  unfold calculate_pac_rebalancing at h
  split_ifs at h with hbal
  obtain ⟨s1, s2, s3, s4, s5⟩ := pacRun_spec P hP (pacBudget pd P) (initPacEntries pd)
  injection h with hm hpl hti hfv hb
  subst hm
  subst hpl
  exact ⟨s3, s1, s4, s5⟩

/-- Witness for `claim_C4` on the portfolio {800, 200} with targets {50, 50}
and monthly amount 100: the plan keeps 3 months of [0, 100], which sum to 300
= 3·100, the budget is ⌈300/100⌉ = 3, and no early stop occurs. -/
theorem claim_C4_witness :
    ((([[0, 100], [0, 100], [0, 100]] : List (List ℚ)).map List.sum).sum
        ≤ ((3 : ℕ) : ℚ) * 100)
    ∧ (3 : ℕ) ≤ pacBudget pdExC1 100
    ∧ (∀ k, k < (3 : ℕ) →
        ¬ ((periodAllocs 100 ((stepState 100)^[k] (initPacEntries pdExC1))).all
            (fun a => decide (a = 0)) = true))
    ∧ ((3 : ℕ) < pacBudget pdExC1 100 →
        ((periodAllocs 100 ((stepState 100)^[(3 : ℕ)] (initPacEntries pdExC1))).all
            (fun a => decide (a = 0)) = true)) :=
  claim_C4 pdExC1 100 3 [[0, 100], [0, 100], [0, 100]] 300 1300 false (by norm_num)
    (by
      norm_num [pdExC1, calculate_pac_rebalancing, totalDeficit, deficitOf, pacBudget,
        pacPlanList, pacFinal, pacRun, initPacEntries, calculate_portfolio_metrics,
        filteredTotal, mkMetric, List.filter_cons, List.filterMap_cons,
        periodAllocs, periodNeeds, needOf, periodBase, baseAllocOf, routedAllocs,
        applyAllocs, addAt, bestUnderweight, nameAt, stepState, abs_le])

/-! ### Claim C1 -/

/-- Claim C1, amended.  The engine's solved contribution — the `total_needed`
that sizes the plan (`pacBudget` divides by it) — is computed in a single
pass as the deficit against the *current* total,
`X₀ = Σ max(0, target_pct/100 · total_value − current_value)`; no fixed-point
iteration is performed, so the solved value is the first estimate of the
claimed iteration, not its fixed point. -/
theorem claim_C1_amended (pd : PortfolioData) (hT : 0 < pd.total_value) :
    totalDeficit pd
      = (pd.assets_data.map (fun a =>
          max 0 (a.pct_target / 100 * pd.total_value - a.valore_attuale))).sum := by
  unfold totalDeficit
  refine congrArg List.sum (List.map_congr_left ?_)
  intro a _
  unfold deficitOf
  have hne : pd.total_value ≠ 0 := hT.ne'
  have hkey : a.pct_target / 100 * pd.total_value - a.valore_attuale
      = (a.pct_target - a.valore_attuale / pd.total_value * 100) / 100
          * pd.total_value := by
    field_simp
    ring
  by_cases hlt : a.valore_attuale / pd.total_value * 100 < a.pct_target
  · rw [if_pos hlt, hkey, max_eq_right]
    exact mul_nonneg (div_nonneg (sub_pos.mpr hlt).le (by norm_num)) hT.le
  · rw [if_neg hlt, hkey, max_eq_left]
    have hsub : a.pct_target - a.valore_attuale / pd.total_value * 100 ≤ 0 :=
      sub_nonpos.mpr (not_lt.mp hlt)
    have h1 : (a.pct_target - a.valore_attuale / pd.total_value * 100) / 100 ≤ 0 := by
      linarith
    exact mul_nonpos_of_nonpos_of_nonneg h1 hT.le

/-- Claim C1 fails as stated: for the spec's own example {800, 200} with
targets {50, 50}, the engine's solved contribution is the one-shot deficit
300, not within 0.01 of the claimed fixed point 600, and the plan it sizes
runs ⌈300/100⌉ = 3 periods of 100. -/
theorem claim_C1_counterexample :
    totalDeficit pdExC1 = 300
    ∧ ¬ (|totalDeficit pdExC1 - 600| ≤ 0.01)
    ∧ calculate_pac_rebalancing pdExC1 100
        = PacResult.plan 3 [[0, 100], [0, 100], [0, 100]] 300 1300 false := by
  refine ⟨?_, ?_, ?_⟩
  · norm_num [pdExC1, totalDeficit, deficitOf, calculate_portfolio_metrics,
      filteredTotal, mkMetric, List.filter_cons, List.filterMap_cons]
  · norm_num [pdExC1, totalDeficit, deficitOf, calculate_portfolio_metrics,
      filteredTotal, mkMetric, List.filter_cons, List.filterMap_cons, abs_le]
  · norm_num [pdExC1, calculate_pac_rebalancing, totalDeficit, deficitOf, pacBudget,
      pacPlanList, pacFinal, pacRun, initPacEntries, calculate_portfolio_metrics,
      filteredTotal, mkMetric, List.filter_cons, List.filterMap_cons,
      periodAllocs, periodNeeds, needOf, periodBase, baseAllocOf, routedAllocs,
      applyAllocs, addAt, bestUnderweight, nameAt, stepState, abs_le]

/-- Witness for `claim_C1_amended` at the {800, 200} portfolio. -/
theorem claim_C1_witness :
    totalDeficit pdExC1
      = (pdExC1.assets_data.map (fun a =>
          max 0 (a.pct_target / 100 * pdExC1.total_value - a.valore_attuale))).sum :=
  claim_C1_amended pdExC1 (by
    norm_num [pdExC1, calculate_portfolio_metrics, filteredTotal, List.filter_cons])

/-! ### Claim C10 -/

/-- Claim C10, confirmed.  Every produced plan reports
`total_invested = periods_used · monthly_amount`; and on the portfolio
{101, 899} with targets {10, 89.995} and monthly amount 10, the single period
actually places only 9.9495 into assets (the leftover 0.0505 finds no
underweight asset and is silently dropped) while `total_invested` reports 10 —
so `total_invested` can exceed the money actually placed. -/
theorem claim_C10 :
    (∀ (pd : PortfolioData) (P : ℚ) (m : ℕ) (pl : List (List ℚ)) (ti fv : ℚ)
        (b : Bool),
        calculate_pac_rebalancing pd P = PacResult.plan m pl ti fv b →
          ti = (m : ℚ) * P)
    ∧ calculate_pac_rebalancing pdC10 10
        = PacResult.plan 1 [[0, 19899/2000]] 10 (2019899/2000) true
    ∧ (([[0, 19899/2000]] : List (List ℚ)).map List.sum).sum = 19899/2000
    ∧ (19899/2000 : ℚ) < 10 := by
  refine ⟨?_, ?_, by norm_num, by norm_num⟩
  · intro pd P m pl ti fv b h
    unfold calculate_pac_rebalancing at h
    split_ifs at h with hbal
    injection h with hm hpl hti hfv hb
    subst hm
    exact hti.symm
  · have htd : totalDeficit pdC10 = 19/20 := by
      norm_num [pdC10, totalDeficit, deficitOf, calculate_portfolio_metrics,
        filteredTotal, mkMetric, List.filter_cons, List.filterMap_cons]
    have hbud : pacBudget pdC10 10 = 1 := by
      unfold pacBudget
      rw [htd]
      have hc : Int.ceil ((19 : ℚ) / 20 / 10) = 1 := by
        rw [Int.ceil_eq_iff]
        norm_num
      rw [hc]
      rfl
    have hinit : initPacEntries pdC10
        = [⟨"A", 10, 101, false⟩, ⟨"B", 17999/200, 899, true⟩] := by
      norm_num [pdC10, initPacEntries, calculate_portfolio_metrics, filteredTotal,
        mkMetric, List.filter_cons, List.filterMap_cons]
    norm_num [calculate_pac_rebalancing, htd, hbud, hinit, pacPlanList, pacFinal,
      pacRun, periodAllocs, periodNeeds, needOf, periodBase, baseAllocOf,
      routedAllocs, applyAllocs, addAt, bestUnderweight, nameAt, stepState, abs_le]

/-- Witness for `claim_C10`: its universal part applied at the concrete run of
the {101, 899} portfolio, whose reported `total_invested` 10 equals
`1 · 10`. -/
theorem claim_C10_witness : (10 : ℚ) = ((1 : ℕ) : ℚ) * 10 :=
  claim_C10.1 pdC10 10 1 [[0, 19899/2000]] 10 (2019899/2000) true claim_C10.2.1

end Rebalance
